import Mathlib

/-
Shallow embedding of src/main.py (a FastAPI account-management service).

The user store is the module-level dict `users_db`, modelled as an
association list from user_id to record.  Each endpoint handler is a pure
function from the store (plus request data and, where the code declares the
`authenticate_user` dependency, the authenticated caller) to the new store
paired with either a response value or the error the handler raises.
Pydantic request-model validation (SignupRequest / UserUpdateRequest field
constraints) happens in FastAPI before the handler body runs; it is embedded
as a validation step in front of the handler in the `_endpoint` functions.
-/

set_option maxHeartbeats 1000000
set_option linter.unusedVariables false

namespace UserApi

/-- A stored user record: the value type of the `users_db` dict in
src/main.py (keys "password", "nickname", "comment"). -/
structure UserRecord where
  password : String
  nickname : String
  comment : Option String
deriving DecidableEq, Repr

/-- The user store: the `users_db` dict, keyed by user_id. -/
abbrev Store := List (String × UserRecord)

/-- Dict lookup `users_db.get(k)` / `k in users_db`. -/
def storeGet : Store → String → Option UserRecord
  | [], _ => none
  | (k', v) :: rest, k => if k' = k then some v else storeGet rest k

/-- Dict assignment `users_db[k] = v` (replace if present, else append). -/
def storeSet : Store → String → UserRecord → Store
  | [], k, v => [(k, v)]
  | (k', v') :: rest, k, v =>
      if k' = k then (k, v) :: rest else (k', v') :: storeSet rest k v

/-- Dict deletion `del users_db[k]`. -/
def storeErase : Store → String → Store
  | [], _ => []
  | (k', v) :: rest, k => if k' = k then rest else (k', v) :: storeErase rest k

/-- Well-formedness of the store as an image of a Python dict: keys are
pairwise distinct. -/
def storeWF (db : Store) : Prop := (db.map Prod.fst).Nodup

instance (db : Store) : Decidable (storeWF db) := by
  unfold storeWF; infer_instance

/-- The initial `users_db` of src/main.py (lines 18-31). -/
def users_db : Store :=
  [("TaroYamada", ⟨"PaSSwd4TY", "たろー", some "僕は元気です"⟩),
   ("testuser", ⟨"resurtset", "Test User", some "This is a test user."⟩)]

/-- The errors the handlers raise (HTTPException payloads), tagged by the
error taxonomy of the service.  `authError` keeps the HTTP status code and
detail message so that the two raise sites in `authenticate_user` can be
compared; every 401 is also accompanied by a `WWW-Authenticate: Basic`
header in the code. -/
inductive ApiError where
  | validationError (cause : String)
  | conflictError (message : String) (cause : String)
  | authError (statusCode : Nat) (message : String)
  | forbiddenError (message : String)
  | notFoundError (message : String)
deriving DecidableEq, Repr

/-- The `user` object in the signup response body (user_id and nickname
only; src/main.py lines 95-101). -/
structure SignupUser where
  user_id : String
  nickname : String
deriving DecidableEq, Repr

/-- The full signup success body: a message and the created identity. -/
structure SignupResponse where
  message : String
  user : SignupUser
deriving DecidableEq, Repr

/-- The `UserResponse` pydantic model (src/main.py lines 40-43). -/
structure UserResponse where
  user_id : String
  nickname : String
  comment : Option String
deriving DecidableEq, Repr

/-- Character class of the `SignupRequest.user_id` pattern
`^[a-zA-Z0-9]+$` (src/main.py line 36). -/
def isUserIdChar (c : Char) : Bool :=
  ('a' ≤ c && c ≤ 'z') || ('A' ≤ c && c ≤ 'Z') || ('0' ≤ c && c ≤ '9')

/-- Character class of the `SignupRequest.password` pattern `^[!-~]+$`
(src/main.py line 38). -/
def isPasswordChar (c : Char) : Bool :=
  '!' ≤ c && c ≤ '~'

/-- Pydantic validation of `SignupRequest` (src/main.py lines 34-38):
user_id length 6-20 matching `^[a-zA-Z0-9]+$`, password length 8-20
matching `^[!-~]+$`. -/
def signupRequestValid (user_id password : String) : Bool :=
  decide (6 ≤ user_id.length) && decide (user_id.length ≤ 20) &&
  user_id.toList.all isUserIdChar &&
  decide (8 ≤ password.length) && decide (password.length ≤ 20) &&
  password.toList.all isPasswordChar

/-- The `UserUpdateRequest` pydantic model (src/main.py lines 45-47):
both fields optional. -/
structure UserUpdateRequest where
  nickname : Option String
  comment : Option String
deriving DecidableEq, Repr

/-- Pydantic field validation of `UserUpdateRequest` (src/main.py lines
46-47): `max_length=30` on nickname and `max_length=100` on comment.  No
minimum length is declared on either field. -/
def updateFieldsOk (nickname comment : Option String) : Bool :=
  (match nickname with | some n => decide (n.length ≤ 30) | none => true) &&
  (match comment with | some c => decide (c.length ≤ 100) | none => true)

/-- `authenticate_user` (src/main.py lines 60-78): look up the Basic-auth
username; 401 "Authentication failed" if absent, 401 "Authentication
failed" if the password does not match; otherwise return the username. -/
def authenticate_user (db : Store) (username password : String) :
    Except ApiError String :=
  match storeGet db username with
  | none => .error (.authError 401 "Authentication failed")
  | some user =>
      if password ≠ user.password then
        .error (.authError 401 "Authentication failed")
      else
        .ok username

/-- The `signup` handler body (src/main.py lines 83-101), reached after
pydantic accepted the request model: conflict on an existing user_id,
otherwise insert {password, nickname := user_id, comment := None} and
return the created identity. -/
def signup (db : Store) (user_id password : String) :
    Store × Except ApiError SignupResponse :=
  match storeGet db user_id with
  | some _ =>
      (db, .error (.conflictError "Account creation failed"
                    "Already same user_id is used"))
  | none =>
      (storeSet db user_id ⟨password, user_id, none⟩,
       .ok ⟨"Account successfully created", ⟨user_id, user_id⟩⟩)

/-- The full POST /signup pipeline: pydantic `SignupRequest` validation
first (raised before the handler body, hence before any store access),
then the handler. -/
def signup_endpoint (db : Store) (user_id password : String) :
    Store × Except ApiError SignupResponse :=
  if signupRequestValid user_id password then
    signup db user_id password
  else
    (db, .error (.validationError "signup request validation failed"))

/-- `get_user_info` (src/main.py lines 105-114): 404 if the user_id is
absent, else return (user_id, nickname, comment).  The authenticated
caller is a parameter of the handler but is never used in its body. -/
def get_user_info (db : Store) (user_id : String)
    (authenticated_user : String) : Store × Except ApiError UserResponse :=
  match storeGet db user_id with
  | none => (db, .error (.notFoundError "No user found"))
  | some user_data =>
      (db, .ok ⟨user_id, user_data.nickname, user_data.comment⟩)

/-- `update_user_info` (src/main.py lines 119-162), reached after pydantic
accepted the request model: 403 if caller is not the target, 404 if
absent, 400 if both fields are absent (`check_at_least_one_field`), else
overwrite exactly the present fields and store the result. -/
def update_user_info (db : Store) (user_id : String)
    (update_request : UserUpdateRequest) (authenticated_user : String) :
    Store × Except ApiError UserResponse :=
  if user_id ≠ authenticated_user then
    (db, .error (.forbiddenError "No permission for update"))
  else
    match storeGet db user_id with
    | none => (db, .error (.notFoundError "No User found"))
    | some current_user_data =>
        match update_request.nickname, update_request.comment with
        | none, none =>
            (db, .error (.validationError
              "nickname または comment のどちらか一方は必須です"))
        | _, _ =>
            let updated : UserRecord :=
              { password := current_user_data.password
                nickname := match update_request.nickname with
                  | some n => n
                  | none => current_user_data.nickname
                comment := match update_request.comment with
                  | some c => some c
                  | none => current_user_data.comment }
            (storeSet db user_id updated,
             .ok ⟨user_id, updated.nickname, updated.comment⟩)

/-- The full PATCH /users/{user_id} pipeline: pydantic `UserUpdateRequest`
field validation first (FastAPI validates the request body before the
handler body runs), then the handler. -/
def update_endpoint (db : Store) (user_id : String)
    (nickname comment : Option String) (caller : String) :
    Store × Except ApiError UserResponse :=
  if updateFieldsOk nickname comment then
    update_user_info db user_id ⟨nickname, comment⟩ caller
  else
    (db, .error (.validationError "update request validation failed"))

/-- `close_account` (src/main.py lines 165-174): delete the authenticated
caller's own record if present, else 404.  The handler takes no
target-user parameter: only the authenticated caller. -/
def close_account (db : Store) (authenticated_user : String) :
    Store × Except ApiError String :=
  match storeGet db authenticated_user with
  | some _ =>
      (storeErase db authenticated_user,
       .ok "Account and user successfully removed.")
  | none =>
      (db, .error (.notFoundError "No user found to remove."))

/-- One exposed operation of the service, used to state store invariants
across every operation. -/
inductive Op where
  | signupOp (user_id password : String)
  | getOp (user_id caller : String)
  | updateOp (user_id : String) (nickname comment : Option String)
      (caller : String)
  | closeOp (caller : String)
deriving DecidableEq, Repr

/-- The store produced by running one operation. -/
def applyOp (db : Store) : Op → Store
  | .signupOp uid pw => (signup_endpoint db uid pw).1
  | .getOp uid c => (get_user_info db uid c).1
  | .updateOp uid n cm c => (update_endpoint db uid n cm c).1
  | .closeOp c => (close_account db c).1

deriving instance DecidableEq for Except

/-! Spec-side predicates.  These follow the wording of the specification
(and of the claims derived from it), to be compared with the code-side
validation functions above. -/

/-- The character class `[A-Za-z0-9_]` claimed by the spec for user_id,
written over code points: digits, upper-case letters, lower-case letters,
or underscore (code point 95). -/
def specUserIdCharClaimed (c : Char) : Prop :=
  (48 ≤ c.toNat ∧ c.toNat ≤ 57) ∨ (65 ≤ c.toNat ∧ c.toNat ≤ 90) ∨
  (97 ≤ c.toNat ∧ c.toNat ≤ 122) ∨ c.toNat = 95

/-- The character class `[A-Za-z0-9]` actually enforced by the code's
pattern: as claimed but without the underscore. -/
def specUserIdCharAmended (c : Char) : Prop :=
  (48 ≤ c.toNat ∧ c.toNat ≤ 57) ∨ (65 ≤ c.toNat ∧ c.toNat ≤ 90) ∨
  (97 ≤ c.toNat ∧ c.toNat ≤ 122)

/-- Printable ASCII excluding space and control characters: code points
33 (`!`) through 126 (`~`). -/
def specPasswordCharSpec (c : Char) : Prop :=
  33 ≤ c.toNat ∧ c.toNat ≤ 126

/-- The signup precondition exactly as the claim states it: user_id
matches `[A-Za-z0-9_]+` with length 6-20, password is printable ASCII
excluding space/control with length 8-20. -/
def claimedSignupPrecondition (user_id password : String) : Prop :=
  6 ≤ user_id.length ∧ user_id.length ≤ 20 ∧
  (∀ c ∈ user_id.toList, specUserIdCharClaimed c) ∧
  8 ≤ password.length ∧ password.length ≤ 20 ∧
  (∀ c ∈ password.toList, specPasswordCharSpec c)

/-- The signup precondition amended to what the code enforces: as claimed
but with underscore excluded from the user_id alphabet. -/
def amendedSignupPrecondition (user_id password : String) : Prop :=
  6 ≤ user_id.length ∧ user_id.length ≤ 20 ∧
  (∀ c ∈ user_id.toList, specUserIdCharAmended c) ∧
  8 ≤ password.length ∧ password.length ≤ 20 ∧
  (∀ c ∈ password.toList, specPasswordCharSpec c)

instance (u p : String) : Decidable (claimedSignupPrecondition u p) := by
  unfold claimedSignupPrecondition specUserIdCharClaimed specPasswordCharSpec
  infer_instance

instance (u p : String) : Decidable (amendedSignupPrecondition u p) := by
  unfold amendedSignupPrecondition specUserIdCharAmended specPasswordCharSpec
  infer_instance

/-! Bridge lemmas between the code-side boolean checks and the spec-side
predicates, and frame lemmas for the store operations. -/

theorem isUserIdChar_iff (c : Char) :
    isUserIdChar c = true ↔ specUserIdCharAmended c := by
  simp only [isUserIdChar, specUserIdCharAmended, Bool.or_eq_true,
    Bool.and_eq_true, decide_eq_true_eq]
  constructor
  · rintro ((⟨h1, h2⟩ | ⟨h1, h2⟩) | ⟨h1, h2⟩)
    · exact Or.inr (Or.inr ⟨h1, h2⟩)
    · exact Or.inr (Or.inl ⟨h1, h2⟩)
    · exact Or.inl ⟨h1, h2⟩
  · rintro (⟨h1, h2⟩ | ⟨h1, h2⟩ | ⟨h1, h2⟩)
    · exact Or.inr ⟨h1, h2⟩
    · exact Or.inl (Or.inr ⟨h1, h2⟩)
    · exact Or.inl (Or.inl ⟨h1, h2⟩)

theorem isPasswordChar_iff (c : Char) :
    isPasswordChar c = true ↔ specPasswordCharSpec c := by
  simp only [isPasswordChar, specPasswordCharSpec, Bool.and_eq_true,
    decide_eq_true_eq]
  exact Iff.rfl

theorem signupRequestValid_iff (user_id password : String) :
    signupRequestValid user_id password = true ↔
      amendedSignupPrecondition user_id password := by
  simp only [signupRequestValid, amendedSignupPrecondition,
    Bool.and_eq_true, decide_eq_true_eq, List.all_eq_true,
    isUserIdChar_iff, isPasswordChar_iff]
  tauto

theorem storeGet_storeSet_self (db : Store) (k : String) (v : UserRecord) :
    storeGet (storeSet db k v) k = some v := by
  induction db with
  | nil => simp [storeGet, storeSet]
  | cons hd tl ih =>
    obtain ⟨k', v'⟩ := hd
    by_cases h : k' = k
    · simp [storeSet, storeGet, h]
    · simp [storeSet, storeGet, h, ih]

theorem storeGet_storeSet_ne (db : Store) (k : String) (v : UserRecord)
    (k'' : String) (h : k'' ≠ k) :
    storeGet (storeSet db k v) k'' = storeGet db k'' := by
  induction db with
  | nil => simp [storeGet, storeSet, Ne.symm h]
  | cons hd tl ih =>
    obtain ⟨k', v'⟩ := hd
    by_cases hk : k' = k
    · subst hk
      simp [storeSet, storeGet, Ne.symm h]
    · simp only [storeSet, if_neg hk, storeGet]
      by_cases hk2 : k' = k''
      · simp [hk2]
      · simp [hk2, ih]

theorem storeGet_storeErase_ne (db : Store) (k k'' : String)
    (h : k'' ≠ k) :
    storeGet (storeErase db k) k'' = storeGet db k'' := by
  induction db with
  | nil => rfl
  | cons hd tl ih =>
    obtain ⟨k', v'⟩ := hd
    by_cases hk : k' = k
    · subst hk
      simp [storeErase, storeGet, Ne.symm h]
    · simp only [storeErase, if_neg hk, storeGet]
      by_cases hk2 : k' = k''
      · simp [hk2]
      · simp [hk2, ih]

theorem storeGet_eq_none_of_not_mem (db : Store) (k : String)
    (h : k ∉ db.map Prod.fst) : storeGet db k = none := by
  induction db with
  | nil => rfl
  | cons hd tl ih =>
    obtain ⟨k', v'⟩ := hd
    simp only [List.map_cons, List.mem_cons] at h
    push_neg at h
    simp [storeGet, Ne.symm h.1, ih h.2]

theorem storeGet_storeErase_self (db : Store) (k : String)
    (hwf : storeWF db) : storeGet (storeErase db k) k = none := by
  induction db with
  | nil => rfl
  | cons hd tl ih =>
    obtain ⟨k', v'⟩ := hd
    simp only [storeWF, List.map_cons, List.nodup_cons] at hwf
    by_cases hk : k' = k
    · simp only [storeErase, if_pos hk]
      exact storeGet_eq_none_of_not_mem tl k (hk ▸ hwf.1)
    · simp only [storeErase, if_neg hk, storeGet, if_neg hk]
      exact ih hwf.2

/-- C1 (counterexample): the claim's precondition allows underscore in
user_id (`[A-Za-z0-9_]+`), but the code's pattern `^[a-zA-Z0-9]+$` does
not: "abc_def" with the valid password "password1" satisfies the claimed
precondition, yet signup fails with a ValidationError. -/
theorem signup_underscore_rejected_cex :
    claimedSignupPrecondition "abc_def" "password1" ∧
    (signup_endpoint users_db "abc_def" "password1").2 =
      .error (.validationError "signup request validation failed") :=
  ⟨by decide, by decide⟩

/-- C1 (amended): signup fails with ValidationError, before any store
access (the result is (db, error) for the given store, for every store),
if and only if the input violates the code's preconditions: user_id
matching `[A-Za-z0-9]+` (no underscore) with length 6-20, and password
consisting of printable ASCII excluding space and control characters with
length 8-20. -/
theorem signup_validation_iff_amended (db : Store) (user_id password : String) :
    ((∃ cause, (signup_endpoint db user_id password).2 =
        .error (.validationError cause)) ↔
      ¬ amendedSignupPrecondition user_id password) ∧
    (¬ amendedSignupPrecondition user_id password →
      signup_endpoint db user_id password =
        (db, .error (.validationError "signup request validation failed"))) := by
  by_cases h : signupRequestValid user_id password = true
  · have hspec := (signupRequestValid_iff user_id password).mp h
    constructor
    · constructor
      · rintro ⟨cause, hc⟩
        exfalso
        rw [signup_endpoint, if_pos h, signup] at hc
        cases hget : storeGet db user_id with
        | none => rw [hget] at hc; simp at hc
        | some r => rw [hget] at hc; simp at hc
      · intro hna; exact absurd hspec hna
    · intro hna; exact absurd hspec hna
  · have hspec : ¬ amendedSignupPrecondition user_id password := fun hs =>
      h ((signupRequestValid_iff user_id password).mpr hs)
    constructor
    · constructor
      · intro _; exact hspec
      · intro _
        exact ⟨"signup request validation failed", by
          rw [signup_endpoint, if_neg h]⟩
    · intro _; rw [signup_endpoint, if_neg h]

/-- C1 (witness). -/
theorem signup_validation_iff_amended_witness :
    ¬ amendedSignupPrecondition "abc" "password1" ∧
    signup_endpoint users_db "abc" "password1" =
      (users_db, .error (.validationError "signup request validation failed")) :=
  ⟨by decide,
   (signup_validation_iff_amended users_db "abc" "password1").2 (by decide)⟩

/-- C2 (code-bug evaluation): the pydantic `UserUpdateRequest` declares
only `max_length=30` on nickname, so the owner "TaroYamada" sending
nickname := "" is accepted and the stored nickname becomes the empty
string, violating the "nickname is never empty" invariant that held
before the call. -/
theorem nickname_empty_after_update_bug :
    storeGet users_db "TaroYamada" =
      some ⟨"PaSSwd4TY", "たろー", some "僕は元気です"⟩ ∧
    ("たろー" : String).length = 3 ∧
    storeGet (update_endpoint users_db "TaroYamada" (some "") none
        "TaroYamada").1 "TaroYamada" =
      some ⟨"PaSSwd4TY", "", some "僕は元気です"⟩ :=
  ⟨by decide, by decide, by decide⟩

/-- C3 (code-bug evaluation): nickname := "" has length 0, outside the
claimed 1-30 range, yet updateProfile by the owner on an existing user_id
succeeds instead of failing with ValidationError, because the code never
enforces a minimum nickname length. -/
theorem update_accepts_empty_nickname_bug :
    ("" : String).length = 0 ∧
    (update_endpoint users_db "TaroYamada" (some "") none "TaroYamada").2 =
      .ok ⟨"TaroYamada", "", some "僕は元気です"⟩ :=
  ⟨by decide, by decide⟩

/-- C4 (counterexample): on a duplicate user_id the handler raises the
conflict with cause "Already same user_id is used", not the cause
"duplicate user_id" stated by the claim. -/
theorem signup_conflict_cause_cex :
    signupRequestValid "TaroYamada" "newPass123" = true ∧
    (signup_endpoint users_db "TaroYamada" "newPass123").2 =
      .error (.conflictError "Account creation failed"
        "Already same user_id is used") ∧
    (signup_endpoint users_db "TaroYamada" "newPass123").2 ≠
      .error (.conflictError "Account creation failed" "duplicate user_id") :=
  ⟨by decide, by decide, by decide⟩

/-- C4 (amended): for every signup input passing validation, if the
user_id already exists the call fails with the ConflictError whose cause
is "Already same user_id is used", regardless of the password, and leaves
the store unchanged; otherwise it inserts a record with nickname =
user_id, comment absent and the given password, leaves every other key
unchanged, and returns only the created (user_id, nickname) identity,
never the password. -/
theorem signup_conflict_or_insert (db : Store) (user_id password : String)
    (h : signupRequestValid user_id password = true) :
    (∀ r, storeGet db user_id = some r →
      signup_endpoint db user_id password =
        (db, .error (.conflictError "Account creation failed"
          "Already same user_id is used"))) ∧
    (storeGet db user_id = none →
      (signup_endpoint db user_id password).2 =
        .ok ⟨"Account successfully created", ⟨user_id, user_id⟩⟩ ∧
      storeGet (signup_endpoint db user_id password).1 user_id =
        some ⟨password, user_id, none⟩ ∧
      (∀ k, k ≠ user_id →
        storeGet (signup_endpoint db user_id password).1 k = storeGet db k)) := by
  rw [signup_endpoint, if_pos h]
  constructor
  · intro r hget
    rw [signup, hget]
  · intro hget
    rw [signup, hget]
    exact ⟨rfl, storeGet_storeSet_self db user_id _,
      fun k hk => storeGet_storeSet_ne db user_id _ k hk⟩

/-- C4 (witness). -/
theorem signup_conflict_or_insert_witness :
    signupRequestValid "TaroYamada" "newPass123" = true ∧
    storeGet users_db "TaroYamada" =
      some ⟨"PaSSwd4TY", "たろー", some "僕は元気です"⟩ ∧
    signup_endpoint users_db "TaroYamada" "newPass123" =
      (users_db, .error (.conflictError "Account creation failed"
        "Already same user_id is used")) :=
  ⟨by decide, by decide,
   (signup_conflict_or_insert users_db "TaroYamada" "newPass123"
      (by decide)).1 ⟨"PaSSwd4TY", "たろー", some "僕は元気です"⟩ (by decide)⟩

/-- C6 (counterexample): FastAPI validates the pydantic request model
before the handler body runs, so a non-owner caller sending a 31-character
nickname against an existing user_id gets a ValidationError, not the
ForbiddenError the claim requires for every non-owner call. -/
theorem update_nonowner_validation_first_cex :
    ("testuser" : String) ≠ "TaroYamada" ∧
    (∃ r, storeGet users_db "TaroYamada" = some r) ∧
    (update_endpoint users_db "TaroYamada"
        (some "aaaaaaaaaaaaaaaaaaaaaaaaaaaaaaa") none "testuser").2 =
      .error (.validationError "update request validation failed") ∧
    (update_endpoint users_db "TaroYamada"
        (some "aaaaaaaaaaaaaaaaaaaaaaaaaaaaaaa") none "testuser").2 ≠
      .error (.forbiddenError "No permission for update") :=
  ⟨by decide, ⟨⟨"PaSSwd4TY", "たろー", some "僕は元気です"⟩, by decide⟩,
   by decide, by decide⟩

/-- C6 (amended): for every request whose fields pass the pydantic length
checks (nickname at most 30 if present, comment at most 100 if present),
a non-owner authenticated caller always gets ForbiddenError with the
store unchanged — even when the target exists, when both fields are
absent, or when the target user_id does not exist (ownership is decided
before the existence check and before the at-least-one-field check, but
after the pydantic field-length validation). -/
theorem update_nonowner_forbidden (db : Store) (user_id caller : String)
    (nickname comment : Option String) (hne : caller ≠ user_id)
    (hfields : updateFieldsOk nickname comment = true) :
    update_endpoint db user_id nickname comment caller =
      (db, .error (.forbiddenError "No permission for update")) := by
  rw [update_endpoint, if_pos hfields, update_user_info,
    if_pos (Ne.symm hne)]

/-- C6 (witness). -/
theorem update_nonowner_forbidden_witness :
    ("testuser" : String) ≠ "TaroYamada" ∧
    updateFieldsOk (some "nick") (some "hi") = true ∧
    update_endpoint users_db "TaroYamada" (some "nick") (some "hi")
        "testuser" =
      (users_db, .error (.forbiddenError "No permission for update")) :=
  ⟨by decide, by decide,
   update_nonowner_forbidden users_db "TaroYamada" "testuser" (some "nick")
     (some "hi") (by decide) (by decide)⟩

/-- C5: every successful updateProfile call applies exactly the fields
present in the request: an absent field retains its prior value, a
present field takes the supplied value, the record stays under its
user_id with its password unchanged, and every other record in the store
is unchanged. -/
theorem update_partial_frame (db : Store) (user_id caller : String)
    (nickname comment : Option String) (db' : Store) (resp : UserResponse)
    (h : update_endpoint db user_id nickname comment caller =
      (db', .ok resp)) :
    ∃ current updated : UserRecord,
      storeGet db user_id = some current ∧
      storeGet db' user_id = some updated ∧
      updated.password = current.password ∧
      (nickname = none → updated.nickname = current.nickname) ∧
      (∀ n, nickname = some n → updated.nickname = n) ∧
      (comment = none → updated.comment = current.comment) ∧
      (∀ c, comment = some c → updated.comment = some c) ∧
      (∀ k, k ≠ user_id → storeGet db' k = storeGet db k) := by
  by_cases hv : updateFieldsOk nickname comment = true
  · rw [update_endpoint, if_pos hv, update_user_info] at h
    by_cases huc : user_id ≠ caller
    · rw [if_pos huc] at h
      simp at h
    · rw [if_neg huc] at h
      cases hget : storeGet db user_id with
      | none => rw [hget] at h; simp at h
      | some current =>
        rw [hget] at h
        cases hn : nickname with
        | none =>
          cases hc : comment with
          | none => rw [hn, hc] at h; simp at h
          | some c =>
            rw [hn, hc] at h
            rw [Prod.mk.injEq] at h
            obtain ⟨hdb, hresp⟩ := h
            refine ⟨current, ⟨current.password, current.nickname, some c⟩,
              rfl, ?_, rfl, fun _ => rfl, ?_, ?_, ?_, ?_⟩
            · rw [← hdb]; exact storeGet_storeSet_self db user_id _
            · intro n hn'; simp at hn'
            · intro h'; simp at h'
            · intro c' hc'
              obtain rfl : c = c' := by injection hc'
              rfl
            · intro k hk; rw [← hdb]
              exact storeGet_storeSet_ne db user_id _ k hk
        | some n =>
          cases hc : comment with
          | none =>
            rw [hn, hc] at h
            rw [Prod.mk.injEq] at h
            obtain ⟨hdb, hresp⟩ := h
            refine ⟨current, ⟨current.password, n, current.comment⟩,
              rfl, ?_, rfl, ?_, ?_, fun _ => rfl, ?_, ?_⟩
            · rw [← hdb]; exact storeGet_storeSet_self db user_id _
            · intro h'; simp at h'
            · intro n' hn'
              obtain rfl : n = n' := by injection hn'
              rfl
            · intro c' hc'; simp at hc'
            · intro k hk; rw [← hdb]
              exact storeGet_storeSet_ne db user_id _ k hk
          | some c =>
            rw [hn, hc] at h
            rw [Prod.mk.injEq] at h
            obtain ⟨hdb, hresp⟩ := h
            refine ⟨current, ⟨current.password, n, some c⟩,
              rfl, ?_, rfl, ?_, ?_, ?_, ?_, ?_⟩
            · rw [← hdb]; exact storeGet_storeSet_self db user_id _
            · intro h'; simp at h'
            · intro n' hn'
              obtain rfl : n = n' := by injection hn'
              rfl
            · intro h'; simp at h'
            · intro c' hc'
              obtain rfl : c = c' := by injection hc'
              rfl
            · intro k hk; rw [← hdb]
              exact storeGet_storeSet_ne db user_id _ k hk
  · rw [update_endpoint, if_neg hv] at h
    simp at h

/-- C5 (witness). -/
theorem update_partial_frame_witness :
    update_endpoint users_db "TaroYamada" none (some "hello") "TaroYamada" =
      ((("TaroYamada", ⟨"PaSSwd4TY", "たろー", some "hello"⟩) ::
        ("testuser",
          ⟨"resurtset", "Test User", some "This is a test user."⟩) :: []),
       .ok ⟨"TaroYamada", "たろー", some "hello"⟩) ∧
    ∃ current updated : UserRecord,
      storeGet users_db "TaroYamada" = some current ∧
      storeGet (("TaroYamada",
          (⟨"PaSSwd4TY", "たろー", some "hello"⟩ : UserRecord)) ::
        ("testuser",
          ⟨"resurtset", "Test User", some "This is a test user."⟩) :: [])
        "TaroYamada" = some updated ∧
      updated.password = current.password ∧
      updated.nickname = current.nickname :=
  ⟨by decide, by
    obtain ⟨current, updated, h1, h2, h3, h4, _, _, _, _⟩ :=
      update_partial_frame users_db "TaroYamada" "TaroYamada" none
        (some "hello")
        (("TaroYamada",
            (⟨"PaSSwd4TY", "たろー", some "hello"⟩ : UserRecord)) ::
          ("testuser",
            ⟨"resurtset", "Test User", some "This is a test user."⟩) :: [])
        ⟨"TaroYamada", "たろー", some "hello"⟩ (by decide)
    exact ⟨current, updated, h1, h2, h3, h4 rfl⟩⟩

/-- C7: getProfile leaves the store untouched, its outcome does not depend
on the caller's identity, and it returns the target's current (user_id,
nickname, comment) when the user_id exists and NotFoundError when it does
not. -/
theorem get_user_info_spec (db : Store) (user_id c1 c2 : String) :
    (get_user_info db user_id c1).1 = db ∧
    (get_user_info db user_id c1).2 = (get_user_info db user_id c2).2 ∧
    (∀ r, storeGet db user_id = some r →
      (get_user_info db user_id c1).2 =
        .ok ⟨user_id, r.nickname, r.comment⟩) ∧
    (storeGet db user_id = none →
      (get_user_info db user_id c1).2 =
        .error (.notFoundError "No user found")) := by
  refine ⟨?_, ?_, ?_, ?_⟩
  · cases hget : storeGet db user_id <;> simp [get_user_info, hget]
  · cases hget : storeGet db user_id <;> simp [get_user_info, hget]
  · intro r hget; simp [get_user_info, hget]
  · intro hget; simp [get_user_info, hget]

/-- C7 (witness). -/
theorem get_user_info_spec_witness :
    storeGet users_db "TaroYamada" =
      some ⟨"PaSSwd4TY", "たろー", some "僕は元気です"⟩ ∧
    (get_user_info users_db "TaroYamada" "testuser").2 =
      .ok ⟨"TaroYamada", "たろー", some "僕は元気です"⟩ ∧
    (get_user_info users_db "ghostuser" "testuser").2 =
      .error (.notFoundError "No user found") :=
  ⟨by decide,
   (get_user_info_spec users_db "TaroYamada" "testuser" "TaroYamada").2.2.1
     ⟨"PaSSwd4TY", "たろー", some "僕は元気です"⟩ (by decide),
   (get_user_info_spec users_db "ghostuser" "testuser" "TaroYamada").2.2.2
     (by decide)⟩

/-- C8: on a well-formed store, closeAccount for a present caller removes
exactly the caller's own record (the handler takes no target-user
parameter), leaves every other record unchanged, and afterwards getProfile
and the owner's updateProfile on that user_id fail with NotFoundError; a
caller already absent at deletion time gets NotFoundError with the store
unchanged. -/
theorem close_account_spec (db : Store) (caller : String)
    (hwf : storeWF db) :
    (∀ r, storeGet db caller = some r →
      (close_account db caller).2 =
        .ok "Account and user successfully removed." ∧
      storeGet (close_account db caller).1 caller = none ∧
      (∀ k, k ≠ caller →
        storeGet (close_account db caller).1 k = storeGet db k) ∧
      (∀ c, (get_user_info (close_account db caller).1 caller c).2 =
        .error (.notFoundError "No user found")) ∧
      (∀ req, (update_user_info (close_account db caller).1 caller req
          caller).2 = .error (.notFoundError "No User found"))) ∧
    (storeGet db caller = none →
      close_account db caller =
        (db, .error (.notFoundError "No user found to remove."))) := by
  constructor
  · intro r hget
    have h1 : (close_account db caller).1 = storeErase db caller := by
      rw [close_account, hget]
    have hnone : storeGet (close_account db caller).1 caller = none := by
      rw [h1]; exact storeGet_storeErase_self db caller hwf
    refine ⟨by rw [close_account, hget], hnone, ?_, ?_, ?_⟩
    · intro k hk; rw [h1]; exact storeGet_storeErase_ne db caller k hk
    · intro c; simp [get_user_info, hnone]
    · intro req; simp [update_user_info, hnone]
  · intro hget
    rw [close_account, hget]

/-- C8 (witness). -/
theorem close_account_spec_witness :
    storeWF users_db ∧
    storeGet users_db "testuser" =
      some ⟨"resurtset", "Test User", some "This is a test user."⟩ ∧
    (close_account users_db "testuser").2 =
      .ok "Account and user successfully removed." ∧
    storeGet (close_account users_db "testuser").1 "testuser" = none ∧
    storeGet (close_account users_db "testuser").1 "TaroYamada" =
      storeGet users_db "TaroYamada" := by
  have h := (close_account_spec users_db "testuser" (by decide)).1
    ⟨"resurtset", "Test User", some "This is a test user."⟩ (by decide)
  exact ⟨by decide, by decide, h.1, h.2.1, h.2.2.1 "TaroYamada" (by decide)⟩

/-- C9: authenticate produces the identical error — the same 401 status
and the same "Authentication failed" message — for an absent username and
for a present username with a non-matching password, and on success it
returns exactly the matched user_id. -/
theorem authenticate_uniform_error (db : Store) (u1 pw1 u2 pw2 : String)
    (r : UserRecord) (h1 : storeGet db u1 = none)
    (h2 : storeGet db u2 = some r) (h3 : pw2 ≠ r.password) :
    authenticate_user db u1 pw1 =
      .error (.authError 401 "Authentication failed") ∧
    authenticate_user db u2 pw2 =
      .error (.authError 401 "Authentication failed") ∧
    authenticate_user db u1 pw1 = authenticate_user db u2 pw2 ∧
    (∀ db0 u pw r0, storeGet db0 u = some r0 → pw = r0.password →
      authenticate_user db0 u pw = .ok u) := by
  have e1 : authenticate_user db u1 pw1 =
      .error (.authError 401 "Authentication failed") := by
    rw [authenticate_user, h1]
  have e2 : authenticate_user db u2 pw2 =
      .error (.authError 401 "Authentication failed") := by
    rw [authenticate_user, h2]
    simp [h3]
  refine ⟨e1, e2, e1.trans e2.symm, ?_⟩
  intro db0 u pw r0 hget hpw
  rw [authenticate_user, hget]
  simp [hpw]

/-- C9 (witness). -/
theorem authenticate_uniform_error_witness :
    storeGet users_db "ghostuser" = none ∧
    storeGet users_db "TaroYamada" =
      some ⟨"PaSSwd4TY", "たろー", some "僕は元気です"⟩ ∧
    authenticate_user users_db "ghostuser" "whatever1" =
      authenticate_user users_db "TaroYamada" "wrongpass" ∧
    authenticate_user users_db "TaroYamada" "PaSSwd4TY" = .ok "TaroYamada" := by
  have h := authenticate_uniform_error users_db "ghostuser" "whatever1"
    "TaroYamada" "wrongpass" ⟨"PaSSwd4TY", "たろー", some "僕は元気です"⟩
    (by decide) (by decide) (by decide)
  exact ⟨by decide, by decide, h.2.2.1,
    h.2.2.2 users_db "TaroYamada" "PaSSwd4TY"
      ⟨"PaSSwd4TY", "たろー", some "僕は元気です"⟩ (by decide) rfl⟩

/-- C10: on a well-formed store, once a present record's comment is set
(not None), no single exposed operation — signup, getProfile,
updateProfile or closeAccount, with any arguments — can return it to the
unset state while the record remains present: updateProfile treats an
absent comment as "leave unchanged" and a present comment is always a
string value. -/
theorem comment_set_preserved (db : Store) (user_id : String)
    (r : UserRecord) (hwf : storeWF db)
    (hget : storeGet db user_id = some r) (hset : r.comment ≠ none)
    (op : Op) (r' : UserRecord)
    (h' : storeGet (applyOp db op) user_id = some r') :
    r'.comment ≠ none := by
  cases op with
  | getOp uid c =>
    have : applyOp db (.getOp uid c) = db := by
      simp only [applyOp]
      cases hg : storeGet db uid <;> simp [get_user_info, hg]
    rw [this, hget] at h'
    obtain rfl : r = r' := by injection h'
    exact hset
  | signupOp uid pw =>
    simp only [applyOp, signup_endpoint] at h'
    by_cases hv : signupRequestValid uid pw = true
    · rw [if_pos hv, signup] at h'
      cases hg : storeGet db uid with
      | some q =>
        rw [hg] at h'
        simp only at h'
        rw [hget] at h'
        obtain rfl : r = r' := by injection h'
        exact hset
      | none =>
        rw [hg] at h'
        simp only at h'
        by_cases hk : user_id = uid
        · rw [← hk] at hg
          rw [hget] at hg
          exact absurd hg (by simp)
        · rw [storeGet_storeSet_ne db uid _ user_id hk, hget] at h'
          obtain rfl : r = r' := by injection h'
          exact hset
    · rw [if_neg hv] at h'
      simp only at h'
      rw [hget] at h'
      obtain rfl : r = r' := by injection h'
      exact hset
  | closeOp c =>
    simp only [applyOp, close_account] at h'
    cases hg : storeGet db c with
    | some q =>
      rw [hg] at h'
      simp only at h'
      by_cases hk : user_id = c
      · rw [hk, storeGet_storeErase_self db c hwf] at h'
        exact absurd h' (by simp)
      · rw [storeGet_storeErase_ne db c user_id hk, hget] at h'
        obtain rfl : r = r' := by injection h'
        exact hset
    | none =>
      rw [hg] at h'
      simp only at h'
      rw [hget] at h'
      obtain rfl : r = r' := by injection h'
      exact hset
  | updateOp uid n cm c =>
    simp only [applyOp, update_endpoint] at h'
    by_cases hv : updateFieldsOk n cm = true
    · rw [if_pos hv, update_user_info] at h'
      by_cases huc : uid ≠ c
      · rw [if_pos huc] at h'
        simp only at h'
        rw [hget] at h'
        obtain rfl : r = r' := by injection h'
        exact hset
      · rw [if_neg huc] at h'
        cases hg : storeGet db uid with
        | none =>
          rw [hg] at h'
          simp only at h'
          rw [hget] at h'
          obtain rfl : r = r' := by injection h'
          exact hset
        | some current =>
          rw [hg] at h'
          cases hn : n with
          | none =>
            cases hc : cm with
            | none =>
              rw [hn, hc] at h'
              simp only at h'
              rw [hget] at h'
              obtain rfl : r = r' := by injection h'
              exact hset
            | some cv =>
              rw [hn, hc] at h'
              simp only at h'
              by_cases hk : user_id = uid
              · rw [hk, storeGet_storeSet_self] at h'
                obtain rfl :
                    (⟨current.password, current.nickname, some cv⟩ :
                      UserRecord) = r' := by injection h'
                simp
              · rw [storeGet_storeSet_ne db uid _ user_id hk, hget] at h'
                obtain rfl : r = r' := by injection h'
                exact hset
          | some nv =>
            cases hc : cm with
            | none =>
              rw [hn, hc] at h'
              simp only at h'
              by_cases hk : user_id = uid
              · rw [hk, storeGet_storeSet_self] at h'
                obtain rfl :
                    (⟨current.password, nv, current.comment⟩ :
                      UserRecord) = r' := by injection h'
                have : current.comment ≠ none := by
                  rw [← hk] at hg
                  rw [hget] at hg
                  obtain rfl : r = current := by injection hg
                  exact hset
                exact this
              · rw [storeGet_storeSet_ne db uid _ user_id hk, hget] at h'
                obtain rfl : r = r' := by injection h'
                exact hset
            | some cv =>
              rw [hn, hc] at h'
              simp only at h'
              by_cases hk : user_id = uid
              · rw [hk, storeGet_storeSet_self] at h'
                obtain rfl :
                    (⟨current.password, nv, some cv⟩ :
                      UserRecord) = r' := by injection h'
                simp
              · rw [storeGet_storeSet_ne db uid _ user_id hk, hget] at h'
                obtain rfl : r = r' := by injection h'
                exact hset
    · rw [if_neg hv] at h'
      simp only at h'
      rw [hget] at h'
      obtain rfl : r = r' := by injection h'
      exact hset

/-- C10 (witness). -/
theorem comment_set_preserved_witness :
    storeWF users_db ∧
    storeGet users_db "TaroYamada" =
      some ⟨"PaSSwd4TY", "たろー", some "僕は元気です"⟩ ∧
    storeGet (applyOp users_db
        (.updateOp "TaroYamada" (some "newnick") none "TaroYamada"))
      "TaroYamada" = some ⟨"PaSSwd4TY", "newnick", some "僕は元気です"⟩ ∧
    (⟨"PaSSwd4TY", "newnick", some "僕は元気です"⟩ : UserRecord).comment ≠
      none :=
  ⟨by decide, by decide, by decide,
   comment_set_preserved users_db "TaroYamada"
     ⟨"PaSSwd4TY", "たろー", some "僕は元気です"⟩ (by decide) (by decide)
     (by decide) (.updateOp "TaroYamada" (some "newnick") none "TaroYamada")
     ⟨"PaSSwd4TY", "newnick", some "僕は元気です"⟩ (by decide)⟩

end UserApi
